import Mathlib

/-!
Shallow embedding of the Order-to-Delivery backend (FastAPI + MongoDB).

Source files embedded here:
  * src/app/routers/orders.py    — place_order, get_next_order_id, get_order
  * src/app/routers/inventory.py — stock_flags, list_inventory, get_item, update_stock
  * src/app/schemas.py           — the pydantic request/response schemas

Modelling conventions.  MongoDB collections become Lean lists; `find_one`
returns the first document matching the filter, and the `$inc` updates touch
the first matching document, mirroring Mongo's single-document update
operators.  The database state is a `DB` record (inventory collection, orders
collection, and the `counters` document keyed `order_id`, modelled as
`Option Int`).  Handlers are pure functions from a `DB` and a schema-validated
payload to a result together with the post-request `DB`.  HTTP errors are an
explicit `HttpErr` value.  Timestamps (`created_at`) and the trace/logging
middleware are not modelled; the collection-existence preflight in
`place_order` (orders.py lines 70-93) is assumed to succeed.

Two behaviours of the source that matter below:
  * In orders.py the whole handler body (including the duplicate-SKU check and
    every `err(...)`-raised `HTTPException`) sits inside `try ... except
    Exception` (lines 95-234).  `fastapi.HTTPException` is an `Exception`, so
    every domain error raised inside the `try` is caught at line 205 and
    re-raised as HTTP 500 with code "order_processing_error".  The embedding
    records the wrapped domain code in `HttpErr.wrapped`.
  * `get_next_order_id` is called with `db` (no `session=` argument, orders.py
    line 116), so the counter write is outside the Mongo transaction and
    survives `abort_transaction`; the inventory updates and the order insert
    pass `session=session` and are rolled back on abort.
-/

/-- Document of the `inventory` collection: `{sku, name, stock}`
(src/app/schemas.py `InventoryItem`; stock is stored as-is, the read
endpoints clamp when presenting). -/
structure InventoryItem where
  sku : String
  name : String
  stock : Int
  deriving DecidableEq

/-- Entry of a persisted order's `items` array: `{sku, quantity}`
(src/app/schemas.py `OrderItem`). -/
structure OrderItem where
  sku : String
  quantity : Int
  deriving DecidableEq

/-- Document of the `orders` collection as built at orders.py lines 181-189
(`created_at` not modelled). -/
structure Order where
  order_id : Int
  customer_name : String
  status : String
  items : List OrderItem
  total_items : Int
  fulfilment_status : String
  deriving DecidableEq

/-- The Mongo database: `inventory` and `orders` collections plus the
`counters` document `{_id: "order_id", seq: n}` (`none` when that document
does not exist yet). -/
structure DB where
  inventory : List InventoryItem
  orders : List Order
  counter : Option Int
  deriving DecidableEq

/-- Request line item (src/app/schemas.py `OrderItemCreate`): pydantic
enforces `qty > 0` and a non-empty sku, but the embedding keeps the raw
fields and the handlers are analysed without relying on those bounds. -/
structure OrderItemCreate where
  sku : String
  qty : Int
  deriving DecidableEq

/-- Order request payload (src/app/schemas.py `OrderCreate`). -/
structure OrderCreate where
  customer_name : String
  items : List OrderItemCreate
  deriving DecidableEq

/-- Per-line fulfilment outcome (src/app/schemas.py `FulfilledItem`),
built at orders.py lines 164-170. -/
structure FulfilledItem where
  sku : String
  requested_qty : Int
  fulfilled_qty : Int
  remaining_stock : Int
  few_left : Bool
  deriving DecidableEq

/-- Success body of POST /orders (src/app/schemas.py `OrderResponse`),
built at orders.py lines 195-203. -/
structure OrderResponse where
  success : Bool
  order_id : Int
  status : String
  fulfilment_status : String
  partial_fulfilment : Bool
  items : List FulfilledItem
  message : String
  deriving DecidableEq

/-- An HTTP error response: status code, the `detail.code` field, the
optional `detail.sku` field, and — for the 500 produced by the
`except Exception` handler of orders.py lines 205-234 — the `code` of the
wrapped domain `HTTPException` (which survives only inside the message
text of the 500). -/
structure HttpErr where
  http_status : Nat
  code : String
  sku : Option String
  wrapped : Option String
  deriving DecidableEq

/-- Response body of the inventory endpoints (src/app/schemas.py
`InventoryPublic`); the `out_of_stock` key produced by `stock_flags` is
dropped by the response model, which declares only these five fields. -/
structure InventoryPublic where
  sku : String
  name : String
  stock : Int
  status : String
  few_left : Bool
  deriving DecidableEq

/-- Detail body of GET /orders/:id (src/app/schemas.py `OrderDetail`). -/
structure OrderDetail where
  id : Int
  customer_name : String
  status : String
  total_items : Int
  items : List OrderItem
  deriving DecidableEq

/-- Python `str.upper()` (ASCII case mapping, character by character). -/
def py_upper (s : String) : String := ⟨s.data.map Char.toUpper⟩

/-- Python `str.strip()`: drop leading and trailing whitespace. -/
def py_strip (s : String) : String :=
  ⟨((s.data.dropWhile Char.isWhitespace).reverse.dropWhile Char.isWhitespace).reverse⟩

/-- inventory.py lines 12-13: `sku.strip().upper()`. -/
def normalize_sku (s : String) : String := py_upper (py_strip s)

/-- orders.py line 99: `item.sku.upper().strip()` (upper first, then strip). -/
def order_normalize_sku (s : String) : String := py_strip (py_upper s)

/-- Mongo `find_one({"sku": sku})` over the inventory collection: first
document whose sku equals the filter. -/
def find_one : List InventoryItem → String → Option InventoryItem
  | [], _ => none
  | it :: rest, sku => if it.sku = sku then some it else find_one rest sku

/-- Mongo `find_one_and_update({"sku": sku, "stock": {"$gte": 1}},
{"$inc": {"stock": -amt}}, ReturnDocument.AFTER)` (orders.py lines
145-150): decrement the first document matching sku with stock ≥ 1 and
return the post-update document together with the updated collection;
`none` when no document matches. -/
def find_one_and_update : List InventoryItem → String → Int → Option (InventoryItem × List InventoryItem)
  | [], _, _ => none
  | it :: rest, sku, amt =>
    if it.sku = sku ∧ 1 ≤ it.stock then
      some ({ it with stock := it.stock - amt }, { it with stock := it.stock - amt } :: rest)
    else
      match find_one_and_update rest sku amt with
      | some (d, rest') => some (d, it :: rest')
      | none => none

/-- Mongo `find_one({}, sort=[("order_id", -1)])` over the orders
collection (orders.py lines 35-38): the largest persisted order id, or
`none` when the collection is empty. -/
def last_order_id : List Order → Option Int
  | [] => none
  | o :: rest =>
    match last_order_id rest with
    | none => some o.order_id
    | some m => some (max o.order_id m)

/-- orders.py lines 21-53, `get_next_order_id`: when the counter document
exists, `$inc` its seq and return the incremented value; otherwise seed
the counter from the highest persisted order id (note: the code sets
`new_id = last_order["order_id"]` with no `+ 1`, although its own comment
says "start from the highest order_id + 1"), or from 1 when there are no
orders, insert the counter document, and return that seed. -/
def get_next_order_id (db : DB) : Int × DB :=
  match db.counter with
  | some seq => (seq + 1, { db with counter := some (seq + 1) })
  | none =>
    match last_order_id db.orders with
    | some m => (m, { db with counter := some m })
    | none => (1, { db with counter := some (1 : Int) })

/-- orders.py lines 97-110: scan the (already normalized) skus left to
right against the `seen` set, returning the first sku already seen. -/
def first_duplicate : List String → List String → Option String
  | _, [] => none
  | seen, s :: rest => if s ∈ seen then some s else first_duplicate (s :: seen) rest

/-- orders.py lines 122-178, the per-line fulfilment loop, as a fold over
the request lines carrying the session's view of the inventory, the
`partial_fulfilment` flag, the `fulfilment_items` list and
`fulfilled_total`.  A missing sku aborts with `.error sku` (the
`invalid_sku` path, lines 129-139); otherwise the line fulfils
`min(qty, stock)` clamped at 0, decrementing the inventory document when
the fulfilled amount is positive (and falling back to 0 fulfilled if the
guarded update matched nothing, lines 152-154). -/
def process_items : List OrderItemCreate → List InventoryItem → Bool → List FulfilledItem → Int →
    Except String (List InventoryItem × List FulfilledItem × Bool × Int)
  | [], inv, pf, outs, tot => .ok (inv, outs, pf, tot)
  | item :: rest, inv, pf, outs, tot =>
    match find_one inv item.sku with
    | none => .error item.sku
    | some doc =>
      let avail0 := min item.qty doc.stock
      let step :=
        if 0 < avail0 then
          match find_one_and_update inv item.sku avail0 with
          | some (_, inv') => (avail0, inv')
          | none => ((0 : Int), inv)
        else ((0 : Int), inv)
      let remaining := if 0 < step.1 then doc.stock - step.1 else 0
      let out : FulfilledItem :=
        { sku := item.sku, requested_qty := item.qty, fulfilled_qty := step.1,
          remaining_stock := remaining, few_left := decide (0 < remaining ∧ remaining < 10) }
      process_items rest step.2 (pf || decide (step.1 < item.qty)) (outs ++ [out])
        (if 0 < step.1 then tot + step.1 else tot)

/-- orders.py lines 59-234, `place_order`.  Normalize each line's sku in
place, run the duplicate check, then inside the transaction: draw the next
order id (counter write outside the session), run the fulfilment loop,
and on success persist the order document of lines 181-189 — whose `items`
carry each line's requested `item.qty` and whose `total_items` is
`sum(item.qty ...)` — and return the response of lines 195-203.  Every
domain `HTTPException` (duplicate_sku, invalid_sku) raised inside the
`try` is caught by the `except Exception` handler of lines 205-234 and
surfaced as HTTP 500 `order_processing_error`; the inventory writes of an
aborted transaction are rolled back, the counter write is not. -/
def place_order (db : DB) (payload : OrderCreate) : Except HttpErr OrderResponse × DB :=
  let items := payload.items.map (fun i => { i with sku := order_normalize_sku i.sku })
  match first_duplicate [] (items.map (fun i => i.sku)) with
  | some _ =>
    (.error { http_status := 500, code := "order_processing_error", sku := none,
              wrapped := some "duplicate_sku" }, db)
  | none =>
    let p := get_next_order_id db
    match process_items items p.2.inventory false [] 0 with
    | .error _ =>
      (.error { http_status := 500, code := "order_processing_error", sku := none,
                wrapped := some "invalid_sku" }, p.2)
    | .ok (inv', outs, pf, _) =>
      let fs := if pf then "partially fulfilled" else "fully fulfilled"
      let order : Order :=
        { order_id := p.1, customer_name := payload.customer_name, status := "confirmed",
          items := items.map (fun i => { sku := i.sku, quantity := i.qty }),
          total_items := (items.map (fun i => i.qty)).sum,
          fulfilment_status := fs }
      (.ok { success := true, order_id := p.1, status := "confirmed", fulfilment_status := fs,
             partial_fulfilment := pf, items := outs, message := "Order placed successfully" },
       { p.2 with inventory := inv', orders := p.2.orders ++ [order] })

/-- Aggregate of the dict returned by inventory.py lines 24-36. -/
structure StockFlags where
  few_left : Bool
  out_of_stock : Bool
  status : String
  stock : Int
  deriving DecidableEq

/-- inventory.py lines 24-36, `stock_flags`: clamp the stock at 0, then
derive the classification. -/
def stock_flags (stock : Int) : StockFlags :=
  let s := max stock 0
  { few_left := decide (0 < s ∧ s < 10)
  , out_of_stock := decide (s = 0)
  , status := if s = 0 then "out_of_stock" else if s < 10 then "few_left" else "available"
  , stock := s }

/-- The `{sku, name, **flags}` record the inventory endpoints return for a
stored item (the `out_of_stock` key is dropped by `InventoryPublic`). -/
def render_item (it : InventoryItem) : InventoryPublic :=
  let f := stock_flags it.stock
  { sku := it.sku, name := it.name, stock := f.stock, status := f.status, few_left := f.few_left }

/-- inventory.py lines 43-70, GET /inventory: render every stored item. -/
def list_inventory (db : DB) : List InventoryPublic :=
  db.inventory.map render_item

/-- inventory.py lines 77-107, GET /inventory/:sku: normalize, look up,
404 when absent, otherwise render. -/
def get_item (db : DB) (sku : String) : Except HttpErr InventoryPublic :=
  match find_one db.inventory (normalize_sku sku) with
  | none => .error { http_status := 404, code := "sku_not_found",
                     sku := some (normalize_sku sku), wrapped := none }
  | some it => .ok (render_item it)

/-- Outcome of PATCH /inventory/:sku as the code actually behaves (see
`update_stock`). -/
inductive StockUpdateOutcome where
  /-- 422: pydantic rejects the body before the handler runs
  (`StockUpdate.stock: conint(ge=0)`, schemas.py lines 23-24). -/
  | validation_error : StockUpdateOutcome
  /-- 500: the handler crashed on `payload.delta`. -/
  | attr_error : StockUpdateOutcome
  deriving DecidableEq

/-- inventory.py lines 114-179, `update_stock`, embedded as it behaves.
A negative `stock` in the body is rejected with 422 by pydantic's
`conint(ge=0)` on `StockUpdate.stock` before the handler runs.  Every
body that passes validation then crashes the handler: lines 122, 124 and
138 read `payload.delta`, but `schemas.StockUpdate` (schemas.py lines
23-24) defines only the field `stock`, so the very first access at line
122 raises `AttributeError` — outside the handler's `try` block, which
only starts at line 135 — and FastAPI surfaces an HTTP 500.  No database
read or write is ever reached, so the store is returned unchanged.  (Had
the field existed, the write at lines 136-139 would have been
`$inc` — an increment — rather than the overwrite the spec describes.) -/
def update_stock (db : DB) (sku : String) (new_stock : Int) : StockUpdateOutcome × DB :=
  if new_stock < 0 then (.validation_error, db) else (.attr_error, db)

/-- Mongo `find_one({"order_id": oid})`: first order with the given id. -/
def find_order : List Order → Int → Option Order
  | [], _ => none
  | o :: rest, oid => if o.order_id = oid then some o else find_order rest oid

/-- orders.py lines 239-269, GET /orders/:order_id: 404 when the id is
absent, otherwise return the stored fields with `status` upper-cased
(line 261) under the response keys of `OrderDetail`. -/
def get_order (db : DB) (order_id : Int) : Except HttpErr OrderDetail :=
  match find_order db.orders order_id with
  | none => .error { http_status := 404, code := "order_not_found", sku := none, wrapped := none }
  | some o =>
    .ok { id := o.order_id, customer_name := o.customer_name, status := py_upper o.status,
          total_items := o.total_items, items := o.items }

/-- A state-mutating API operation: placing an order or patching a SKU's
stock. -/
inductive Op where
  | placeOrder (payload : OrderCreate) : Op
  | updateStock (sku : String) (new_stock : Int) : Op

/-- The database reached after serving one operation. -/
def apply_op (db : DB) (op : Op) : DB :=
  match op with
  | .placeOrder p => (place_order db p).2
  | .updateStock sku v => (update_stock db sku v).2

/-- The database reached after serving a sequence of operations. -/
def run_ops (db : DB) (ops : List Op) : DB := ops.foldl apply_op db

/-- Every stored stock in the inventory collection is nonnegative. -/
def all_nonneg (inv : List InventoryItem) : Bool :=
  inv.all (fun it => decide (0 ≤ it.stock))

/-! ### Helper lemmas -/

/-- Drawing an order id touches only the counter document. -/
lemma get_next_order_id_inventory (db : DB) : (get_next_order_id db).2.inventory = db.inventory := by
  unfold get_next_order_id
  cases db.counter <;> [skip; rfl]
  cases last_order_id db.orders <;> rfl

/-- Drawing an order id does not touch the orders collection. -/
lemma get_next_order_id_orders (db : DB) : (get_next_order_id db).2.orders = db.orders := by
  unfold get_next_order_id
  cases db.counter <;> [skip; rfl]
  cases last_order_id db.orders <;> rfl

/-- When the first inventory document with the requested sku has stock ≥ 1,
the guarded decrement of orders.py lines 145-150 hits exactly that
document: it succeeds, later lookups of the sku see the decremented stock,
and every other document is left in place. -/
lemma find_one_and_update_spec (inv : List InventoryItem) (sku : String) (amt : Int)
    (f : InventoryItem) (hf : find_one inv sku = some f) (hst : 1 ≤ f.stock) :
    ∃ inv', find_one_and_update inv sku amt = some ({ f with stock := f.stock - amt }, inv') ∧
      find_one inv' sku = some { f with stock := f.stock - amt } ∧
      ∀ x ∈ inv', x ∈ inv ∨ x = { f with stock := f.stock - amt } := by
  induction inv with
  | nil => simp [find_one] at hf
  | cons it rest ih =>
    by_cases h : it.sku = sku
    · have hfit : f = it := by simpa [find_one, h] using hf.symm
      subst hfit
      refine ⟨{ f with stock := f.stock - amt } :: rest, ?_, ?_, ?_⟩
      · simp [find_one_and_update, h, hst]
      · simp [find_one, h]
      · intro x hx
        rcases List.mem_cons.mp hx with hx | hx
        · exact Or.inr hx
        · exact Or.inl (List.mem_cons_of_mem _ hx)
    · have hf' : find_one rest sku = some f := by simpa [find_one, h] using hf
      obtain ⟨rest', h1, h2, h3⟩ := ih hf'
      refine ⟨it :: rest', ?_, ?_, ?_⟩
      · simp [find_one_and_update, h, h1]
      · simp [find_one, h, h2]
      · intro x hx
        rcases List.mem_cons.mp hx with hx | hx
        · exact Or.inl (by simp [hx])
        · rcases h3 x hx with hm | hm
          · exact Or.inl (List.mem_cons_of_mem _ hm)
          · exact Or.inr hm

/-- The fulfilment loop never drives a stock negative: it decrements a
line's document by `min(qty, stock)` and only when that amount is
positive. -/
lemma process_items_nonneg :
    ∀ (items : List OrderItemCreate) (inv : List InventoryItem) (pf : Bool)
      (outs : List FulfilledItem) (tot : Int),
      (∀ x ∈ inv, 0 ≤ x.stock) →
      ∀ r, process_items items inv pf outs tot = .ok r → ∀ x ∈ r.1, 0 ≤ x.stock := by
  intro items
  induction items with
  | nil =>
    intro inv pf outs tot hinv r hr x hx
    simp only [process_items, Except.ok.injEq] at hr
    subst hr
    exact hinv x hx
  | cons item rest ih =>
    intro inv pf outs tot hinv r hr x hx
    rw [process_items] at hr
    cases hfind : find_one inv item.sku with
    | none => rw [hfind] at hr; exact absurd hr (by simp)
    | some doc =>
      rw [hfind] at hr
      simp only [] at hr
      by_cases h0 : 0 < min item.qty doc.stock
      · have hst : (1 : Int) ≤ doc.stock := by
          have := min_le_right item.qty doc.stock
          omega
        obtain ⟨inv2, hupd, -, hmem⟩ :=
          find_one_and_update_spec inv item.sku (min item.qty doc.stock) doc hfind hst
        rw [if_pos h0, hupd] at hr
        have hinv2 : ∀ y ∈ inv2, 0 ≤ y.stock := by
          intro y hy
          rcases hmem y hy with hm | hm
          · exact hinv y hm
          · have : min item.qty doc.stock ≤ doc.stock := min_le_right _ _
            rw [hm]
            simp only []
            omega
        exact ih inv2 _ _ _ hinv2 r hr x hx
      · rw [if_neg h0] at hr
        exact ih inv _ _ _ hinv r hr x hx

/-- Serving a POST /orders request leaves every stock nonnegative when
every stock was nonnegative before it (the rejection paths return the
store unchanged; the commit path applies the fulfilment loop). -/
lemma place_order_nonneg (db : DB) (payload : OrderCreate)
    (hinv : ∀ x ∈ db.inventory, 0 ≤ x.stock) :
    ∀ x ∈ (place_order db payload).2.inventory, 0 ≤ x.stock := by
  intro x hx
  rw [place_order] at hx
  cases hdup : first_duplicate []
      ((payload.items.map (fun i => { i with sku := order_normalize_sku i.sku })).map
        (fun i => i.sku)) with
  | some s => rw [hdup] at hx; exact hinv x hx
  | none =>
    rw [hdup] at hx
    simp only [] at hx
    cases hpi : process_items
        (payload.items.map (fun i => { i with sku := order_normalize_sku i.sku }))
        (get_next_order_id db).2.inventory false [] 0 with
    | error s =>
      rw [hpi] at hx
      rw [get_next_order_id_inventory] at hx
      exact hinv x hx
    | ok r =>
      obtain ⟨inv', outs, pf, tot⟩ := r
      rw [hpi] at hx
      simp only [] at hx
      have hinv' : ∀ y ∈ (get_next_order_id db).2.inventory, 0 ≤ y.stock := by
        rw [get_next_order_id_inventory]; exact hinv
      exact process_items_nonneg _ _ _ _ _ hinv' (inv', outs, pf, tot) hpi x hx

/-- Serving any single API operation preserves nonnegative stocks
(PATCH never reaches a database write, see `update_stock`). -/
lemma apply_op_nonneg (db : DB) (op : Op)
    (hinv : ∀ x ∈ db.inventory, 0 ≤ x.stock) :
    ∀ x ∈ (apply_op db op).inventory, 0 ≤ x.stock := by
  cases op with
  | placeOrder p => exact place_order_nonneg db p hinv
  | updateStock sku v =>
    intro x hx
    rw [apply_op, update_stock] at hx
    by_cases h : v < 0
    · rw [if_pos h] at hx; exact hinv x hx
    · rw [if_neg h] at hx; exact hinv x hx

/-- Boolean form of stock nonnegativity, for concrete evaluation. -/
lemma all_nonneg_iff (inv : List InventoryItem) :
    all_nonneg inv = true ↔ ∀ x ∈ inv, 0 ≤ x.stock := by
  simp [all_nonneg, List.all_eq_true]

/-- A single-line order whose sku resolves to a document with
`0 < stock < qty` runs the fulfilment loop to completion, fulfilling the
whole stock, reporting remaining stock 0, and flagging the request
partial. -/
lemma process_items_single_excess (inv : List InventoryItem) (nsku : String) (qty : Int)
    (it : InventoryItem) (hfind : find_one inv nsku = some it)
    (hpos : 0 < it.stock) (hlt : it.stock < qty) :
    ∃ inv2,
      process_items [{ sku := nsku, qty := qty }] inv false [] 0 =
        .ok (inv2, [{ sku := nsku, requested_qty := qty, fulfilled_qty := it.stock,
                      remaining_stock := 0, few_left := false }], true, it.stock) ∧
      find_one inv2 nsku = some { it with stock := 0 } := by
  have hmin : min qty it.stock = it.stock := min_eq_right (le_of_lt hlt)
  have hst : (1 : Int) ≤ it.stock := hpos
  obtain ⟨inv2, hupd, hfind2, -⟩ := find_one_and_update_spec inv nsku it.stock it hfind hst
  refine ⟨inv2, ?_, ?_⟩
  · rw [process_items, hfind]
    simp only [hmin, hupd, if_pos hpos, sub_self]
    rw [process_items]
    simp [hlt, sub_self]
  · simpa [sub_self] using hfind2

/-! ### Claim theorems -/

/-- C6: for every SKU and every sequence of place_order / update_stock
operations, a stock that is nonnegative before an operation is
nonnegative after it: place_order decrements a line's document by
`min(qty, stock)` (and only when positive), and a negative stock value in
PATCH is rejected by schema validation before the handler runs, so no
operation drives a stock below zero. -/
theorem stock_nonneg_invariant (ops : List Op) (db : DB)
    (h : all_nonneg db.inventory = true) :
    all_nonneg (run_ops db ops).inventory = true := by
  rw [all_nonneg_iff] at h ⊢
  rw [run_ops]
  induction ops generalizing db with
  | nil => exact h
  | cons op rest ih =>
    rw [List.foldl_cons]
    exact ih (apply_op db op) (apply_op_nonneg db op h)

/-- Witness for C6 at a concrete store and operation sequence. -/
theorem stock_nonneg_invariant_witness :
    all_nonneg (run_ops { inventory := [{ sku := "FUR001", name := "Chair", stock := 5 }],
                          orders := [], counter := none }
      [Op.updateStock "FUR001" 7,
       Op.placeOrder { customer_name := "Amy",
                       items := [{ sku := "fur001 ", qty := 10 }] }]).inventory = true :=
  stock_nonneg_invariant
    [Op.updateStock "FUR001" 7,
     Op.placeOrder { customer_name := "Amy", items := [{ sku := "fur001 ", qty := 10 }] }]
    { inventory := [{ sku := "FUR001", name := "Chair", stock := 5 }],
      orders := [], counter := none }
    (by decide)

/-- C1: a single-line order requesting more than the available stock
`s > 0` succeeds: the response fulfils exactly `s`, reports remaining
stock 0 and partial fulfilment, the order is persisted with status
"confirmed", and the SKU's stock afterwards is 0. -/
theorem place_order_excess_qty_partially_fulfils
    (db : DB) (name sku : String) (qty : Int) (it : InventoryItem)
    (hfind : find_one db.inventory (order_normalize_sku sku) = some it)
    (hpos : 0 < it.stock) (hlt : it.stock < qty) :
    (place_order db { customer_name := name, items := [{ sku := sku, qty := qty }] }).1 =
      .ok { success := true, order_id := (get_next_order_id db).1, status := "confirmed",
            fulfilment_status := "partially fulfilled", partial_fulfilment := true,
            items := [{ sku := order_normalize_sku sku, requested_qty := qty,
                        fulfilled_qty := it.stock, remaining_stock := 0, few_left := false }],
            message := "Order placed successfully" } ∧
    (place_order db { customer_name := name, items := [{ sku := sku, qty := qty }] }).2.orders =
      db.orders ++ [{ order_id := (get_next_order_id db).1, customer_name := name,
                      status := "confirmed",
                      items := [{ sku := order_normalize_sku sku, quantity := qty }],
                      total_items := qty, fulfilment_status := "partially fulfilled" }] ∧
    find_one
      (place_order db { customer_name := name, items := [{ sku := sku, qty := qty }] }).2.inventory
      (order_normalize_sku sku) = some { it with stock := 0 } := by
  obtain ⟨inv2, hpi, hfind2⟩ :=
    process_items_single_excess (get_next_order_id db).2.inventory (order_normalize_sku sku)
      qty it (by rw [get_next_order_id_inventory]; exact hfind) hpos hlt
  have hdup : first_duplicate [] [order_normalize_sku sku] = none := by
    simp [first_duplicate]
  refine ⟨?_, ?_, ?_⟩ <;>
    simp [place_order, hdup, hpi, get_next_order_id_orders, hfind2]

/-- Witness for C1: stock 5, requested qty 10 (spec Scenario B). -/
theorem place_order_excess_qty_partially_fulfils_witness :
    (place_order { inventory := [{ sku := "FUR001", name := "Chair", stock := 5 }],
                   orders := [], counter := none }
       { customer_name := "Amy", items := [{ sku := "fur001 ", qty := 10 }] }).1 =
      .ok { success := true,
            order_id := (get_next_order_id { inventory := [{ sku := "FUR001", name := "Chair", stock := 5 }],
                                             orders := [], counter := none }).1,
            status := "confirmed",
            fulfilment_status := "partially fulfilled", partial_fulfilment := true,
            items := [{ sku := order_normalize_sku "fur001 ", requested_qty := 10,
                        fulfilled_qty := 5, remaining_stock := 0, few_left := false }],
            message := "Order placed successfully" } ∧
    (place_order { inventory := [{ sku := "FUR001", name := "Chair", stock := 5 }],
                   orders := [], counter := none }
       { customer_name := "Amy", items := [{ sku := "fur001 ", qty := 10 }] }).2.orders =
      [] ++ [{ order_id := (get_next_order_id { inventory := [{ sku := "FUR001", name := "Chair", stock := 5 }],
                                                orders := [], counter := none }).1,
               customer_name := "Amy", status := "confirmed",
               items := [{ sku := order_normalize_sku "fur001 ", quantity := 10 }],
               total_items := 10, fulfilment_status := "partially fulfilled" }] ∧
    find_one
      (place_order { inventory := [{ sku := "FUR001", name := "Chair", stock := 5 }],
                     orders := [], counter := none }
         { customer_name := "Amy", items := [{ sku := "fur001 ", qty := 10 }] }).2.inventory
      (order_normalize_sku "fur001 ") = some { sku := "FUR001", name := "Chair", stock := 0 } :=
  place_order_excess_qty_partially_fulfils
    { inventory := [{ sku := "FUR001", name := "Chair", stock := 5 }],
      orders := [], counter := none }
    "Amy" "fur001 " 10 { sku := "FUR001", name := "Chair", stock := 5 }
    (by decide) (by decide) (by decide)

/-- C2 (failing part): a duplicate-sku order is indeed rejected before any
stock or counter write — the database comes back exactly unchanged — but
the surfaced error is HTTP 500 "order_processing_error" (the catch-all of
orders.py lines 205-234 wraps the duplicate_sku HTTPException), not the
400 duplicate_sku error the claim and the code's own test suite
(test_api.py NEG03) expect. -/
theorem place_order_duplicate_sku_wrapped_500 :
    place_order { inventory := [{ sku := "FUR001", name := "Chair", stock := 5 }],
                  orders := [], counter := none }
      { customer_name := "Ana", items := [{ sku := "FUR001", qty := 1 },
                                          { sku := "fur001", qty := 1 }] } =
    (.error { http_status := 500, code := "order_processing_error", sku := none,
              wrapped := some "duplicate_sku" },
     { inventory := [{ sku := "FUR001", name := "Chair", stock := 5 }],
       orders := [], counter := none }) := by
  rfl

/-- C3 (failing part): an order whose second line has an unknown sku is
rejected with nothing persisted and the first line's reservation rolled
back — stock returns to 5 (only the counter document, written outside the
transaction, advances) — but the surfaced error is HTTP 500
"order_processing_error" (the catch-all wraps the invalid_sku
HTTPException), not the 400 invalid_sku error the claim and test_api.py
NEG01 expect. -/
theorem place_order_invalid_sku_wrapped_500 :
    place_order { inventory := [{ sku := "FUR001", name := "Chair", stock := 5 }],
                  orders := [], counter := none }
      { customer_name := "Sam", items := [{ sku := "FUR001", qty := 2 },
                                          { sku := "BADSKU", qty := 1 }] } =
    (.error { http_status := 500, code := "order_processing_error", sku := none,
              wrapped := some "invalid_sku" },
     { inventory := [{ sku := "FUR001", name := "Chair", stock := 5 }],
       orders := [], counter := some 1 }) := by
  rfl

/-- C5 (failing part): with no counter document and a persisted order of
id 7, the generator returns 7 — equal to, not strictly greater than, the
maximum persisted order id (orders.py line 42 omits the `+ 1` its own
comment calls for). -/
theorem get_next_order_id_reuses_max_persisted_id :
    (get_next_order_id { inventory := [],
                         orders := [{ order_id := 7, customer_name := "Rahul",
                                      status := "confirmed", items := [], total_items := 0,
                                      fulfilment_status := "fully fulfilled" }],
                         counter := none }).1 = 7 ∧
    ¬ (7 < (get_next_order_id { inventory := [],
                                orders := [{ order_id := 7, customer_name := "Rahul",
                                             status := "confirmed", items := [],
                                             total_items := 0,
                                             fulfilment_status := "fully fulfilled" }],
                                counter := none }).1) := by
  decide

/-- C7 (failing part): a PATCH with an existing sku and a nonnegative new
stock crashes the handler (AttributeError on `payload.delta`,
inventory.py line 122) before any database access, so the stock is not
overwritten; a negative value is rejected by schema validation. -/
theorem update_stock_attr_error_eval :
    update_stock { inventory := [{ sku := "FUR001", name := "Chair", stock := 5 }],
                   orders := [], counter := none } "FUR001" 3 =
      (.attr_error, { inventory := [{ sku := "FUR001", name := "Chair", stock := 5 }],
                      orders := [], counter := none }) ∧
    update_stock { inventory := [{ sku := "FUR001", name := "Chair", stock := 5 }],
                   orders := [], counter := none } "FUR001" (-2) =
      (.validation_error, { inventory := [{ sku := "FUR001", name := "Chair", stock := 5 }],
                            orders := [], counter := none }) :=
  ⟨rfl, rfl⟩

/-- C4 counterexample (spec Scenario B: stock 5, requested 10): the
committed order's response reports `fulfilled_qty = 5`, yet the persisted
record stores `quantity = 10` (the requested amount, orders.py line 185)
and `total_items = 10` (the sum of requested amounts, line 186), and
`10 ≠ 5`. -/
theorem order_record_fulfilled_qty_counterexample :
    (place_order { inventory := [{ sku := "FUR001", name := "Chair", stock := 5 }],
                   orders := [], counter := none }
       { customer_name := "Amy", items := [{ sku := "FUR001", qty := 10 }] }).1 =
      .ok { success := true, order_id := 1, status := "confirmed",
            fulfilment_status := "partially fulfilled", partial_fulfilment := true,
            items := [{ sku := "FUR001", requested_qty := 10, fulfilled_qty := 5,
                        remaining_stock := 0, few_left := false }],
            message := "Order placed successfully" } ∧
    (place_order { inventory := [{ sku := "FUR001", name := "Chair", stock := 5 }],
                   orders := [], counter := none }
       { customer_name := "Amy", items := [{ sku := "FUR001", qty := 10 }] }).2.orders =
      [{ order_id := 1, customer_name := "Amy", status := "confirmed",
         items := [{ sku := "FUR001", quantity := 10 }], total_items := 10,
         fulfilment_status := "partially fulfilled" }] ∧
    ¬ ((10 : Int) = 5) :=
  ⟨rfl, rfl, by decide⟩

/-- C4 amended: every successfully committed order is persisted with each
item's `quantity` equal to that line's requested qty and `total_items`
equal to the sum of the requested quantities (not the fulfilled ones). -/
theorem order_record_stores_requested_quantities
    (db : DB) (payload : OrderCreate) (r : OrderResponse) (db' : DB)
    (h : place_order db payload = (.ok r, db')) :
    db'.orders = db.orders ++
      [{ order_id := r.order_id, customer_name := payload.customer_name,
         status := "confirmed",
         items := payload.items.map
           (fun i => { sku := order_normalize_sku i.sku, quantity := i.qty }),
         total_items := (payload.items.map (fun i => i.qty)).sum,
         fulfilment_status := r.fulfilment_status }] := by
  rw [place_order] at h
  cases hdup : first_duplicate []
      ((payload.items.map (fun i => { i with sku := order_normalize_sku i.sku })).map
        (fun i => i.sku)) with
  | some s => rw [hdup] at h; exact absurd h (by simp)
  | none =>
    rw [hdup] at h
    simp only [] at h
    cases hpi : process_items
        (payload.items.map (fun i => { i with sku := order_normalize_sku i.sku }))
        (get_next_order_id db).2.inventory false [] 0 with
    | error s => rw [hpi] at h; exact absurd h (by simp)
    | ok res =>
      obtain ⟨inv2, outs, pf, tot⟩ := res
      rw [hpi] at h
      simp only [Prod.mk.injEq, Except.ok.injEq] at h
      obtain ⟨hr, hdb⟩ := h
      subst hdb
      subst hr
      simp [get_next_order_id_orders, List.map_map, Function.comp_def]

/-- Witness for the amended C4 at spec Scenario B. -/
theorem order_record_stores_requested_quantities_witness :
    ({ inventory := [{ sku := "FUR001", name := "Chair", stock := 0 }],
       orders := [{ order_id := 1, customer_name := "Amy", status := "confirmed",
                    items := [{ sku := "FUR001", quantity := 10 }], total_items := 10,
                    fulfilment_status := "partially fulfilled" }],
       counter := some 1 } : DB).orders =
    ({ inventory := [{ sku := "FUR001", name := "Chair", stock := 5 }],
       orders := [], counter := none } : DB).orders ++
      [{ order_id := (1 : Int), customer_name := "Amy", status := "confirmed",
         items := [({ sku := "FUR001", qty := 10 } : OrderItemCreate)].map
           (fun i => { sku := order_normalize_sku i.sku, quantity := i.qty }),
         total_items := ([({ sku := "FUR001", qty := 10 } : OrderItemCreate)].map
           (fun i => i.qty)).sum,
         fulfilment_status := "partially fulfilled" }] :=
  order_record_stores_requested_quantities
    { inventory := [{ sku := "FUR001", name := "Chair", stock := 5 }],
      orders := [], counter := none }
    { customer_name := "Amy", items := [{ sku := "FUR001", qty := 10 }] }
    { success := true, order_id := 1, status := "confirmed",
      fulfilment_status := "partially fulfilled", partial_fulfilment := true,
      items := [{ sku := "FUR001", requested_qty := 10, fulfilled_qty := 5,
                  remaining_stock := 0, few_left := false }],
      message := "Order placed successfully" }
    { inventory := [{ sku := "FUR001", name := "Chair", stock := 0 }],
      orders := [{ order_id := 1, customer_name := "Amy", status := "confirmed",
                   items := [{ sku := "FUR001", quantity := 10 }], total_items := 10,
                   fulfilment_status := "partially fulfilled" }],
      counter := some 1 }
    rfl

/-- C8: for a stored item with stock ≥ 0, both inventory read endpoints
report it via `render_item`, whose status is "out_of_stock" exactly when
the stock is 0, "few_left" exactly when 0 < stock < 10, "available"
otherwise, with the few_left boolean true exactly when 0 < stock < 10. -/
theorem inventory_status_classification
    (db : DB) (sku : String) (it : InventoryItem)
    (hfind : find_one db.inventory (normalize_sku sku) = some it)
    (hmem : it ∈ db.inventory) (hnn : 0 ≤ it.stock) :
    get_item db sku = .ok (render_item it) ∧
    render_item it ∈ list_inventory db ∧
    ((render_item it).status = "out_of_stock" ↔ it.stock = 0) ∧
    ((render_item it).status = "few_left" ↔ 0 < it.stock ∧ it.stock < 10) ∧
    ((render_item it).status = "available" ↔ 10 ≤ it.stock) ∧
    ((render_item it).few_left = true ↔ (0 < it.stock ∧ it.stock < 10)) := by
  have hmax : max it.stock 0 = it.stock := max_eq_left hnn
  refine ⟨by rw [get_item, hfind], by rw [list_inventory]; exact List.mem_map_of_mem _ hmem,
    ?_, ?_, ?_, ?_⟩ <;>
    simp only [render_item, stock_flags, hmax] <;>
    by_cases h0 : it.stock = 0 <;> by_cases h10 : it.stock < 10 <;>
      simp [h0, h10] <;> omega

/-- C9: a stored item with negative stock is clamped by both inventory
read endpoints: reported stock 0, status "out_of_stock", few_left false. -/
theorem inventory_clamps_negative_stock
    (db : DB) (sku : String) (it : InventoryItem)
    (hfind : find_one db.inventory (normalize_sku sku) = some it)
    (hmem : it ∈ db.inventory) (hneg : it.stock < 0) :
    get_item db sku = .ok (render_item it) ∧
    render_item it ∈ list_inventory db ∧
    (render_item it).stock = 0 ∧
    (render_item it).status = "out_of_stock" ∧
    (render_item it).few_left = false := by
  have hmax : max it.stock 0 = 0 := max_eq_right (le_of_lt hneg)
  refine ⟨by rw [get_item, hfind], by rw [list_inventory]; exact List.mem_map_of_mem _ hmem,
    ?_, ?_, ?_⟩ <;> simp [render_item, stock_flags, hmax]

/-- C10: fetching a persisted order returns the stored order_id,
customer_name, total_items and items unchanged, and the stored status
string upper-cased. -/
theorem get_order_uppercases_status
    (db : DB) (oid : Int) (o : Order)
    (hfind : find_order db.orders oid = some o) :
    get_order db oid = .ok { id := o.order_id, customer_name := o.customer_name,
                             status := py_upper o.status, total_items := o.total_items,
                             items := o.items } := by
  rw [get_order, hfind]

/-- Witness for C8 at a stored item with stock 5. -/
theorem inventory_status_classification_witness :
    get_item { inventory := [{ sku := "FUR001", name := "Chair", stock := 5 }],
               orders := [], counter := none } " fur001 " =
      .ok (render_item { sku := "FUR001", name := "Chair", stock := 5 }) ∧
    render_item { sku := "FUR001", name := "Chair", stock := 5 } ∈
      list_inventory { inventory := [{ sku := "FUR001", name := "Chair", stock := 5 }],
                       orders := [], counter := none } ∧
    ((render_item { sku := "FUR001", name := "Chair", stock := 5 }).status = "out_of_stock" ↔
      ({ sku := "FUR001", name := "Chair", stock := 5 } : InventoryItem).stock = 0) ∧
    ((render_item { sku := "FUR001", name := "Chair", stock := 5 }).status = "few_left" ↔
      0 < ({ sku := "FUR001", name := "Chair", stock := 5 } : InventoryItem).stock ∧
        ({ sku := "FUR001", name := "Chair", stock := 5 } : InventoryItem).stock < 10) ∧
    ((render_item { sku := "FUR001", name := "Chair", stock := 5 }).status = "available" ↔
      10 ≤ ({ sku := "FUR001", name := "Chair", stock := 5 } : InventoryItem).stock) ∧
    ((render_item { sku := "FUR001", name := "Chair", stock := 5 }).few_left = true ↔
      (0 < ({ sku := "FUR001", name := "Chair", stock := 5 } : InventoryItem).stock ∧
        ({ sku := "FUR001", name := "Chair", stock := 5 } : InventoryItem).stock < 10)) :=
  inventory_status_classification
    { inventory := [{ sku := "FUR001", name := "Chair", stock := 5 }],
      orders := [], counter := none }
    " fur001 " { sku := "FUR001", name := "Chair", stock := 5 }
    (by decide) (by decide) (by decide)

/-- Witness for C9 at a stored item with stock -4. -/
theorem inventory_clamps_negative_stock_witness :
    get_item { inventory := [{ sku := "FUR001", name := "Chair", stock := -4 }],
               orders := [], counter := none } "FUR001" =
      .ok (render_item { sku := "FUR001", name := "Chair", stock := -4 }) ∧
    render_item { sku := "FUR001", name := "Chair", stock := -4 } ∈
      list_inventory { inventory := [{ sku := "FUR001", name := "Chair", stock := -4 }],
                       orders := [], counter := none } ∧
    (render_item { sku := "FUR001", name := "Chair", stock := -4 }).stock = 0 ∧
    (render_item { sku := "FUR001", name := "Chair", stock := -4 }).status = "out_of_stock" ∧
    (render_item { sku := "FUR001", name := "Chair", stock := -4 }).few_left = false :=
  inventory_clamps_negative_stock
    { inventory := [{ sku := "FUR001", name := "Chair", stock := -4 }],
      orders := [], counter := none }
    "FUR001" { sku := "FUR001", name := "Chair", stock := -4 }
    (by decide) (by decide) (by decide)

/-- Witness for C10: a stored status "confirmed" is returned as
"CONFIRMED", the other fields unchanged. -/
theorem get_order_uppercases_status_witness :
    get_order { inventory := [],
                orders := [{ order_id := 2, customer_name := "Bea", status := "confirmed",
                             items := [{ sku := "FUR001", quantity := 10 }],
                             total_items := 10,
                             fulfilment_status := "partially fulfilled" }],
                counter := some 2 } 2 =
      .ok { id := 2, customer_name := "Bea", status := "CONFIRMED", total_items := 10,
            items := [{ sku := "FUR001", quantity := 10 }] } :=
  get_order_uppercases_status
    { inventory := [],
      orders := [{ order_id := 2, customer_name := "Bea", status := "confirmed",
                   items := [{ sku := "FUR001", quantity := 10 }], total_items := 10,
                   fulfilment_status := "partially fulfilled" }],
      counter := some 2 } 2
    { order_id := 2, customer_name := "Bea", status := "confirmed",
      items := [{ sku := "FUR001", quantity := 10 }], total_items := 10,
      fulfilment_status := "partially fulfilled" }
    (by decide)
